import Mathlib

/-!
Verification of the jira_sync frontend (React pages under src/frontend and the
two unnamed page files) against its natural-language specification.

The pure decision logic of each page handler is embedded as Lean functions.
External effects (HTTP responses, thrown errors, the date formatter) are
represented by explicit arguments: a fallible call becomes an Except value,
a possibly-throwing formatter becomes a function returning Option.

Backend components (Connection Tester, Mapping Registry, Retry Coordinator,
Sync Orchestrator) are not part of the source tree; where a claim depends on
them they are modelled from the specification, and each such definition is
marked "Modelled from the spec:" in its doc comment.
-/

namespace JiraSync

/-! ### JavaScript string and truthiness semantics -/

/-- Embedding of the JS test "list s starts with list pat". -/
def listStartsWith : List Char → List Char → Bool
  | _, [] => true
  | [], _ :: _ => false
  | c :: cs, d :: ds => c == d && listStartsWith cs ds

/-- Embedding of substring occurrence on character lists. -/
def listHasSub (s pat : List Char) : Bool :=
  match s with
  | [] => listStartsWith [] pat
  | _ :: rest => listStartsWith s pat || listHasSub rest pat

/-- Embedding of the JS `String.prototype.includes` test used by the
diagnostics blocks of SettingsPage.js. -/
def strHasSub (s pat : String) : Bool :=
  listHasSub s.toList pat.toList

/-- JS truthiness of an optional string value: `undefined`/`null` and the
empty string are falsy, every other string is truthy. -/
def truthy : Option String → Bool
  | none => false
  | some s => s ≠ ""

/-! ### Connection test handler (SettingsPage.js, handleTest, lines 89-110) -/

/-- Shape of the connection test result consumed and produced by `handleTest`:
per-side success booleans and per-side optional error strings. -/
structure TestResults where
  cloud : Bool
  onprem : Bool
  cloud_error : Option String
  onprem_error : Option String
deriving DecidableEq, Repr

/-- The fallback toast message of the catch branch of `handleTest`. -/
def fallbackTestMsg : String := "Bağlantı testi başarısız. Önce ayarları kaydedin."

/-- Embedding of `error.response?.data?.detail || fallback` in the catch
branch of `handleTest` (JS `||` falls through on a falsy, i.e. empty, detail). -/
def errDetailMsg (detail : Option String) : String :=
  match detail with
  | some d => if d = "" then fallbackTestMsg else d
  | none => fallbackTestMsg

/-- Embedding of `handleTest` in SettingsPage.js: on a successful response the
response data is stored as the test results; on a thrown error a structured
result is built with both sides marked failed and both error strings set to
the derived message. The input is the outcome of `testJiraConnection()`:
`.ok data` for a 2xx response, `.error detail` for a thrown error carrying the
optional `error.response?.data?.detail`. -/
def handleTest : Except (Option String) TestResults → TestResults
  | .ok data => data
  | .error detail =>
      { cloud := false
        onprem := false
        cloud_error := some (errDetailMsg detail)
        onprem_error := some (errDetailMsg detail) }

/-- Modelled from the spec: the backend Connection Tester
(`testConnections(settings)`, spec sections 4.1 and 7) is not under src/.
Per the spec it probes each tracker side independently and always returns a
structured result with per-side booleans and optional error strings; each
probe outcome is passed here as an Except value (ok = reachable,
error = the raw error text of that side). -/
def testConnections (cloudProbe onpremProbe : Except String Unit) : TestResults :=
  { cloud := match cloudProbe with | .ok _ => true | .error _ => false
    onprem := match onpremProbe with | .ok _ => true | .error _ => false
    cloud_error := match cloudProbe with | .ok _ => none | .error e => some e
    onprem_error := match onpremProbe with | .ok _ => none | .error e => some e }

/-! ### API request builder (src/frontend/src/lib/api.js, line 34-35) -/

/-- An HTTP request as assembled by the axios wrappers: a path and the query
parameters passed in the axios config. -/
structure Request where
  path : String
  params : List (String × String)
deriving DecidableEq, Repr

/-- Embedding of `getIssueTypeMappings` in api.js:
api.get on the mappings endpoint with config params set to the
project_mapping_id object when the argument is truthy and to the empty object
otherwise.
The JS ternary tests truthiness, so an absent argument and an empty-string
argument both send empty params. -/
def getIssueTypeMappings (projectMappingId : Option String) : Request :=
  { path := "/issuetypes/mappings"
    params :=
      match projectMappingId with
      | some s => if s = "" then [] else [("project_mapping_id", s)]
      | none => [] }

/-! ### Transfer logs page helpers (src/unnamed/part_000) -/

/-- Embedding of `formatDate` in the transfer logs page (lines 81-88): a falsy
input (null, undefined or empty string) yields the placeholder, otherwise the
date-fns formatter is attempted; `fmt` returns `none` exactly when the JS
`format` call would throw, in which case the catch branch returns the raw
input string. -/
def formatDate (fmt : String → Option String) : Option String → String
  | none => "-"
  | some s =>
      if s = "" then "-"
      else
        match fmt s with
        | some out => out
        | none => s

/-- Embedding of the success stats card click handler (line 155):
setStatusFilter flips between the success status and the all filter. -/
def successCardClick (statusFilter : String) : String :=
  if statusFilter = "success" then "all" else "success"

/-- Embedding of the failed stats card click handler (line 171). -/
def failedCardClick (statusFilter : String) : String :=
  if statusFilter = "failed" then "all" else "failed"

/-- Embedding of the pending stats card click handler (line 187). -/
def pendingCardClick (statusFilter : String) : String :=
  if statusFilter = "pending" then "all" else "pending"

/-- The toggle equation stated by the claim, written from its words:
newFilter is the all filter when currentFilter equals cardStatus and is
cardStatus otherwise. -/
def cardToggleSpec (currentFilter cardStatus : String) : String :=
  if currentFilter = cardStatus then "all" else cardStatus

/-! ### Mapping registry data model (spec section 3) -/

/-- A project as returned by the tracker clients: `{key, name}`. -/
structure Project where
  key : String
  name : String
deriving DecidableEq, Repr

/-- ProjectMapping row (spec section 3; ids are server-assigned strings). -/
structure ProjectMapping where
  id : String
  cloud_project_key : String
  cloud_project_name : String
  onprem_project_key : String
  onprem_project_name : String
  is_active : Bool
  start_date : Option Nat
  created_at : Nat
deriving DecidableEq, Repr

/-- An issue type as returned by the tracker clients: `{name}`. -/
structure IssueType where
  name : String
deriving DecidableEq, Repr

/-- IssueTypeMapping row (spec section 3). -/
structure IssueTypeMapping where
  id : String
  project_mapping_id : String
  cloud_issue_type : String
  onprem_issue_type : String
deriving DecidableEq, Repr

/-- TransferLog row (spec section 3). -/
structure TransferLog where
  id : String
  project_mapping_id : String
  cloud_issue_key : String
  cloud_issue_summary : String
  onprem_issue_key : Option String
  status : String
  error_message : Option String
  created_at : Nat
  attempt_count : Nat
deriving DecidableEq, Repr

/-- Error taxonomy of the Mapping Registry (spec section 7). -/
inductive RegistryError
  | DuplicateMapping
  | NotFound
  | UnknownProjectMapping
deriving DecidableEq, Repr

/-! ### Project mappings page (src/unnamed/part_001) -/

/-- Payload fields sent by `createProjectMapping` from `handleAddMapping`
(lines 81-87). -/
structure ProjectMappingInput where
  cloud_project_key : String
  cloud_project_name : String
  onprem_project_key : String
  onprem_project_name : String
  is_active : Bool
deriving DecidableEq, Repr

/-- Embedding of the payload constructed in `handleAddMapping` (lines 81-87)
from the selected cloud and on-premise projects. -/
def projectMappingPayload (cloudProject onpremProject : Project) : ProjectMappingInput :=
  { cloud_project_key := cloudProject.key
    cloud_project_name := cloudProject.name
    onprem_project_key := onpremProject.key
    onprem_project_name := onpremProject.name
    is_active := true }

/-- Embedding of `availableCloudProjects` (part_001 lines 121-124):
`cloudProjects.filter(p => !mappings.find(m => m.cloud_project_key === p.key))`. -/
def availableCloudProjects (cloudProjects : List Project)
    (mappings : List ProjectMapping) : List Project :=
  cloudProjects.filter fun p =>
    !((mappings.find? fun m => m.cloud_project_key == p.key).isSome)

/-- Embedding of the on-premise select options (part_001 lines 205-209): the
select renders every element of `onpremProjects`, unfiltered. -/
def onpremSelectOptions (onpremProjects : List Project) : List Project :=
  onpremProjects

/-- Embedding of the state update in `handleToggleMapping` (part_001 lines
112-114): `mappings.map(m => m.id === id ? { ...m, is_active: response.data.is_active } : m)`. -/
def applyToggle (mappings : List ProjectMapping) (id : String)
    (newActive : Bool) : List ProjectMapping :=
  mappings.map fun m =>
    if m.id == id then { m with is_active := newActive } else m

/-- Modelled from the spec: the backend `createProjectMapping(input)`
(Mapping Registry, spec section 4.2) is not under src/. It fails with
DuplicateMapping if cloud_project_key already has an active mapping, otherwise
inserts a new row with is_active = true; the server-assigned id and creation
time are passed explicitly. Returns the new store and the inserted row. -/
def createProjectMapping (store : List ProjectMapping)
    (input : ProjectMappingInput) (newId : String) (now : Nat) :
    Except RegistryError (List ProjectMapping × ProjectMapping) :=
  if store.any fun m => m.is_active && m.cloud_project_key == input.cloud_project_key then
    .error .DuplicateMapping
  else
    let row : ProjectMapping :=
      { id := newId
        cloud_project_key := input.cloud_project_key
        cloud_project_name := input.cloud_project_name
        onprem_project_key := input.onprem_project_key
        onprem_project_name := input.onprem_project_name
        is_active := true
        start_date := none
        created_at := now }
    .ok (store ++ [row], row)

/-- Backend state the registry operations act on: project mappings, their
child issue-type mappings, and the transfer history. -/
structure RegistryState where
  mappings : List ProjectMapping
  issueTypeMappings : List IssueTypeMapping
  logs : List TransferLog
deriving DecidableEq, Repr

/-- Modelled from the spec: the backend `toggleProjectMapping(id)` (spec
section 4.2) is not under src/. It flips is_active of the addressed mapping,
does not touch child issue-type mappings or history, and returns the new
boolean state (none when the id is absent). -/
def toggleProjectMapping (s : RegistryState) (id : String) :
    RegistryState × Option Bool :=
  match s.mappings.find? fun m => m.id == id with
  | none => (s, none)
  | some m =>
      ({ s with mappings := applyToggle s.mappings id (!m.is_active) },
       some (!m.is_active))

/-! ### Issue type mappings page (src/frontend/src/pages/IssueTypeMappingsPage.js) -/

/-- Modelled from the spec: the backend `listIssueTypeMappings(projectMappingId?)`
(spec section 4.2) is not under src/. With a project scope it returns only that
mappings of that project; without one it returns the legacy-unscoped view. -/
def listIssueTypeMappings (store : List IssueTypeMapping)
    (projectMappingId : Option String) : List IssueTypeMapping :=
  match projectMappingId with
  | some pid => store.filter fun m => m.project_mapping_id == pid
  | none => store

/-- Payload fields sent by `createIssueTypeMapping` from `handleAddMapping`
(IssueTypeMappingsPage.js lines 104-108). -/
structure IssueTypeMappingInput where
  project_mapping_id : String
  cloud_issue_type : String
  onprem_issue_type : String
deriving DecidableEq, Repr

/-- Embedding of the payload constructed in `handleAddMapping` of the issue
type mappings page (lines 104-108): it always carries the selected
project mapping id. -/
def issueTypeMappingPayload (selectedProject selectedCloud selectedOnPrem : String) :
    IssueTypeMappingInput :=
  { project_mapping_id := selectedProject
    cloud_issue_type := selectedCloud
    onprem_issue_type := selectedOnPrem }

/-- Embedding of `availableCloudTypes` (IssueTypeMappingsPage.js lines 133-136):
`cloudTypes.filter(t => !mappings.find(m => m.cloud_issue_type === t.name))`,
where `mappings` is the list fetched for the selected project. -/
def availableCloudTypes (cloudTypes : List IssueType)
    (mappings : List IssueTypeMapping) : List IssueType :=
  cloudTypes.filter fun t =>
    !((mappings.find? fun m => m.cloud_issue_type == t.name).isSome)

/-- Modelled from the spec: the backend
`createIssueTypeMapping(projectMappingId, cloud_issue_type, onprem_issue_type)`
(spec section 4.2) is not under src/. It fails with UnknownProjectMapping if
the parent project mapping id does not exist, with DuplicateMapping if
cloud_issue_type is already mapped under that parent; uniqueness is per
project_mapping_id, not global. -/
def createIssueTypeMapping (projectMappings : List ProjectMapping)
    (store : List IssueTypeMapping)
    (input : IssueTypeMappingInput) (newId : String) :
    Except RegistryError (List IssueTypeMapping × IssueTypeMapping) :=
  if !(projectMappings.any fun p => p.id == input.project_mapping_id) then
    .error .UnknownProjectMapping
  else if store.any fun m =>
      m.project_mapping_id == input.project_mapping_id &&
      m.cloud_issue_type == input.cloud_issue_type then
    .error .DuplicateMapping
  else
    let row : IssueTypeMapping :=
      { id := newId
        project_mapping_id := input.project_mapping_id
        cloud_issue_type := input.cloud_issue_type
        onprem_issue_type := input.onprem_issue_type }
    .ok (store ++ [row], row)

/-! ### Retry coordinator and transfer log rows (spec 4.4, src/unnamed/part_000) -/

/-- Error taxonomy of the Retry Coordinator (spec section 7). -/
inductive RetryError
  | InvalidState
  | NotFound
deriving DecidableEq, Repr

/-- Modelled from the spec: in-place update of a TransferLog row after one
re-executed creation attempt (spec section 4.4): status, onprem_issue_key or
error_message, and the attempt count. The attempt outcome is `.ok key` when
the on-premise tracker returned a created issue key, `.error msg` otherwise. -/
def applyAttempt (attempt : Except String String) (row : TransferLog) : TransferLog :=
  match attempt with
  | .ok key =>
      { row with
        status := "success"
        onprem_issue_key := some key
        error_message := none
        attempt_count := row.attempt_count + 1 }
  | .error msg =>
      { row with
        status := "failed"
        error_message := some msg
        attempt_count := row.attempt_count + 1 }

/-- Modelled from the spec: the backend `retry(logId)` (Retry Coordinator,
spec section 4.4) is not under src/. It loads the TransferLog row, requires
status == "failed" (else InvalidState), and only then re-executes the creation
attempt and updates the row in place; on rejection no creation attempt is made
and the store is untouched. The creation outcome is passed as `attempt`. -/
def retry (logs : List TransferLog) (logId : String)
    (attempt : Except String String) : Except RetryError (List TransferLog) :=
  match logs.find? fun r => r.id == logId with
  | none => .error .NotFound
  | some row =>
      if row.status = "failed" then
        .ok (logs.map fun r => if r.id == logId then applyAttempt attempt r else r)
      else
        .error .InvalidState

/-- What the last table column of a transfer log row offers (part_000 lines
286-308): either the retry button wired to the id of that row, or the plain dash. -/
inductive RowAction
  | retryButton (logId : String)
  | dash
deriving DecidableEq, Repr

/-- Embedding of the rendered action cell (part_000 lines 286-308):
a log with failed status renders the retry button for its id, every other
status renders the dash. -/
def rowAction (log : TransferLog) : RowAction :=
  if log.status = "failed" then .retryButton log.id else .dash

/-! ### Sync trigger (spec sections 4.3 and 5; DashboardPage.js handleSync) -/

/-- Modelled from the spec: the run state of the orchestrator. The spec requires at
most one active run; the model counts active runs so that the at-most-one
property is provable rather than structural. -/
structure SyncState where
  activeRuns : Nat
deriving DecidableEq, Repr

/-- Acknowledgment of a trigger call (spec: acceptance, not completion). -/
inductive SyncAck
  | started
  | alreadyRunning
deriving DecidableEq, Repr

/-- Modelled from the spec: the backend `triggerSync()` (spec sections 4.3 and
5) is not under src/. If a run is already active the call is a no-op that
reports "already running"; otherwise it starts a run and reports acceptance. -/
def triggerSync (s : SyncState) : SyncState × SyncAck :=
  if s.activeRuns ≠ 0 then (s, .alreadyRunning)
  else ({ activeRuns := s.activeRuns + 1 }, .started)

/-- Events affecting the run state: a trigger call, or a run finishing. -/
inductive SyncEvent
  | trigger
  | finish
deriving DecidableEq, Repr

/-- One event applied to the run state. -/
def stepSync (s : SyncState) : SyncEvent → SyncState
  | .trigger => (triggerSync s).1
  | .finish => { activeRuns := s.activeRuns - 1 }

/-- A sequence of trigger and finish events applied in order. -/
def runSync (s : SyncState) (evs : List SyncEvent) : SyncState :=
  evs.foldl stepSync s

/-! ### Connection error diagnostics (SettingsPage.js lines 486-530, 584-637)

Each list item of the rendered "possible causes" block is represented by one
constructor; the display strings themselves are Turkish UI text and are
abstracted into these tags, in source order. -/

/-- Cause items of the cloud diagnostics block (lines 501-524), one
constructor per JSX list item. -/
inductive CloudCause
  | urlUnreachable
  | wrongEmail
  | invalidToken
  | insufficientTokenPerms
  | serverTimeout
  | sslProblem
  | checkUrlFormat
  | recreateToken
deriving DecidableEq, Repr

/-- Embedding of the cloud "possible causes" list (SettingsPage.js lines
501-524): each conditional JSX block contributes its items when its
`includes` test holds, in source order; the last block is the generic
fallback, shown when none of 401, 403, timeout, getaddrinfo occurs. -/
def cloudCauses (e : String) : List CloudCause :=
  (if strHasSub e "getaddrinfo" || strHasSub e "Name or service not known" then
    [.urlUnreachable] else [])
  ++ (if strHasSub e "401" || strHasSub e "Unauthorized" then
    [.wrongEmail, .invalidToken] else [])
  ++ (if strHasSub e "403" || strHasSub e "Forbidden" then
    [.insufficientTokenPerms] else [])
  ++ (if strHasSub e "timeout" || strHasSub e "Timeout" then
    [.serverTimeout] else [])
  ++ (if strHasSub e "SSL" || strHasSub e "certificate" then
    [.sslProblem] else [])
  ++ (if !strHasSub e "401" && !strHasSub e "403" && !strHasSub e "timeout"
        && !strHasSub e "getaddrinfo" then
    [.checkUrlFormat, .recreateToken] else [])

/-- Cause items of the on-premise diagnostics block (lines 599-631), one
constructor per JSX list item. -/
inductive OnPremCause
  | urlUnreachable
  | refusedCheckFirewall
  | wrongUsername
  | wrongPassword
  | noApiPermission
  | cloudEnvironmentNote
  | internalNetworkOnly
  | vpnOrInternalAccess
  | exposeOrSelfHost
  | sslSelfSigned
  | checkUrlFormat
  | vpnMayBeNeeded
  | ensureServerRunning
deriving DecidableEq, Repr

/-- Embedding of the on-premise "possible causes" list (SettingsPage.js lines
599-631): each conditional JSX block contributes its items when its
`includes` test holds, in source order; the last block is the generic
fallback, shown when none of 401, 403, timeout, zaman aşımı, getaddrinfo,
Connection refused occurs. -/
def onpremCauses (e : String) : List OnPremCause :=
  (if strHasSub e "getaddrinfo" || strHasSub e "Name or service not known" then
    [.urlUnreachable] else [])
  ++ (if strHasSub e "Connection refused" then
    [.refusedCheckFirewall] else [])
  ++ (if strHasSub e "401" || strHasSub e "Unauthorized" then
    [.wrongUsername, .wrongPassword] else [])
  ++ (if strHasSub e "403" || strHasSub e "Forbidden" then
    [.noApiPermission] else [])
  ++ (if strHasSub e "zaman aşımı" || strHasSub e "Timeout" || strHasSub e "timeout" then
    [.cloudEnvironmentNote, .internalNetworkOnly, .vpnOrInternalAccess, .exposeOrSelfHost]
    else [])
  ++ (if strHasSub e "SSL" || strHasSub e "certificate" then
    [.sslSelfSigned] else [])
  ++ (if !strHasSub e "401" && !strHasSub e "403" && !strHasSub e "timeout"
        && !strHasSub e "zaman aşımı" && !strHasSub e "getaddrinfo"
        && !strHasSub e "Connection refused" then
    [.checkUrlFormat, .vpnMayBeNeeded, .ensureServerRunning] else [])

/-! ## Claim theorems -/

/-- C1: the connection test reports each tracker side independently: the
result always carries a per-side success boolean and optional error string
for the cloud side and for the on-premise side; in `testConnections` each
side the reported fields depend only on the probe outcome of that side, so a failure
on one side never blocks testing or reporting the other; and `handleTest`
never propagates an exception: on a successful response it stores the
per-side data unchanged, and on any thrown error it still produces a
structured result with both booleans false and both error strings set to a
non-empty message. -/
theorem connection_test_structured_and_independent :
    (∀ r : TestResults, handleTest (.ok r) = r)
    ∧ (∀ d : Option String,
        (handleTest (.error d)).cloud = false
        ∧ (handleTest (.error d)).onprem = false
        ∧ (handleTest (.error d)).cloud_error = some (errDetailMsg d)
        ∧ (handleTest (.error d)).onprem_error = some (errDetailMsg d)
        ∧ errDetailMsg d ≠ "")
    ∧ (∀ c c₂ o : Except String Unit,
        (testConnections c o).onprem = (testConnections c₂ o).onprem
        ∧ (testConnections c o).onprem_error = (testConnections c₂ o).onprem_error)
    ∧ (∀ c o o₂ : Except String Unit,
        (testConnections c o).cloud = (testConnections c o₂).cloud
        ∧ (testConnections c o).cloud_error = (testConnections c o₂).cloud_error)
    ∧ (∀ e : String,
        (testConnections (.error e) (.ok ())).onprem = true
        ∧ (testConnections (.error e) (.ok ())).cloud_error = some e
        ∧ (testConnections (.ok ()) (.error e)).cloud = true
        ∧ (testConnections (.ok ()) (.error e)).onprem_error = some e) := by
  refine ⟨fun r => rfl, fun d => ⟨rfl, rfl, rfl, rfl, ?_⟩, ?_, ?_, ?_⟩
  · cases d with
    | none => simp [errDetailMsg, fallbackTestMsg]
    | some s =>
        by_cases h : s = "" <;> simp [errDetailMsg, fallbackTestMsg, h]
  · intro c c₂ o
    cases c <;> cases c₂ <;> cases o <;> simp [testConnections]
  · intro c o o₂
    cases c <;> cases o <;> cases o₂ <;> simp [testConnections]
  · intro e
    exact ⟨rfl, rfl, rfl, rfl⟩

/-- C5 helper: one trigger or finish event keeps the number of active runs at
most one. -/
theorem stepSync_le_one (s : SyncState) (ev : SyncEvent) (h : s.activeRuns ≤ 1) :
    (stepSync s ev).activeRuns ≤ 1 := by
  cases ev with
  | trigger =>
      by_cases h0 : s.activeRuns = 0
      · simp [stepSync, triggerSync, h0]
      · simpa [stepSync, triggerSync, h0] using h
  | finish => simp [stepSync]; omega

/-- C5: `triggerSync` is idempotent under rapid repeated calls: a call while
a run is active is a no-op on the state reporting "already running", and any
sequence of trigger and finish events starting from a state with at most one
active run (in particular, the idle initial state) keeps at most one run
active at every point. -/
theorem trigger_sync_at_most_one_run :
    (∀ s : SyncState, s.activeRuns ≠ 0 → triggerSync s = (s, .alreadyRunning))
    ∧ (∀ (s : SyncState) (evs : List SyncEvent), s.activeRuns ≤ 1 →
        (runSync s evs).activeRuns ≤ 1)
    ∧ (∀ evs : List SyncEvent, (runSync ⟨0⟩ evs).activeRuns ≤ 1) := by
  have run : ∀ (evs : List SyncEvent) (s : SyncState), s.activeRuns ≤ 1 →
      (runSync s evs).activeRuns ≤ 1 := by
    intro evs
    induction evs with
    | nil => intro s h; exact h
    | cons ev rest ih =>
        intro s h
        exact ih (stepSync s ev) (stepSync_le_one s ev h)
  refine ⟨fun s h => by simp [triggerSync, h], fun s evs h => run evs s h, ?_⟩
  intro evs
  exact run evs ⟨0⟩ (by simp)

/-- C5 witness: a trigger call on an active state is an accepted no-op, and a
concrete rapid burst of triggers never exceeds one active run. -/
theorem trigger_sync_at_most_one_run_witness :
    triggerSync ⟨1⟩ = (⟨1⟩, .alreadyRunning)
    ∧ (runSync ⟨1⟩ [.trigger, .trigger, .finish, .trigger]).activeRuns ≤ 1 :=
  ⟨trigger_sync_at_most_one_run.1 ⟨1⟩ (by decide),
   trigger_sync_at_most_one_run.2.1 ⟨1⟩ [.trigger, .trigger, .finish, .trigger]
     (by decide)⟩

/-- C8 counterexample: the claim states the query parameter is sent if and
only if a projectMappingId argument is supplied, but the code tests JS
truthiness, so the supplied empty-string argument sends empty params: the
claimed equivalence is false at projectMappingId = some "". -/
theorem get_issue_type_mappings_claim_counterexample :
    ¬(((getIssueTypeMappings (some "")).params ≠ []) ↔
      (some "" : Option String) ≠ none) := by
  decide

/-- C8 (amended): the project_mapping_id query parameter is sent if and only
if a truthy (non-empty) projectMappingId argument is supplied: a call with a
non-empty project id sends exactly that id as the parameter, and a call
without an argument (or with the falsy empty string) sends empty params;
the path is always the mappings endpoint. -/
theorem get_issue_type_mappings_params_scoped :
    (∀ pid : Option String,
      (getIssueTypeMappings pid).params ≠ [] ↔ truthy pid = true)
    ∧ (∀ s : String, s ≠ "" →
        (getIssueTypeMappings (some s)).params = [("project_mapping_id", s)])
    ∧ (getIssueTypeMappings none).params = []
    ∧ (∀ pid : Option String,
        (getIssueTypeMappings pid).path = "/issuetypes/mappings") := by
  refine ⟨?_, ?_, rfl, fun pid => rfl⟩
  · intro pid
    cases pid with
    | none => simp [getIssueTypeMappings, truthy]
    | some s =>
        by_cases h : s = "" <;> simp [getIssueTypeMappings, truthy, h]
  · intro s h
    simp [getIssueTypeMappings, h]

/-- C8 witness: a concrete non-empty project id is sent as the scoped query
parameter. -/
theorem get_issue_type_mappings_params_scoped_witness :
    (getIssueTypeMappings (some "pm1")).params = [("project_mapping_id", "pm1")] :=
  get_issue_type_mappings_params_scoped.2.1 "pm1" (by decide)

/-- C9: `formatDate` on the transfer logs page is total: a null, undefined or
empty date string yields the placeholder, a string the formatter handles
yields the formatted output, and a string on which formatting throws (the
formatter returns none) yields the raw input unchanged. -/
theorem format_date_total :
    (∀ fmt : String → Option String, formatDate fmt none = "-")
    ∧ (∀ fmt : String → Option String, formatDate fmt (some "") = "-")
    ∧ (∀ (fmt : String → Option String) (s out : String),
        s ≠ "" → fmt s = some out → formatDate fmt (some s) = out)
    ∧ (∀ (fmt : String → Option String) (s : String),
        s ≠ "" → fmt s = none → formatDate fmt (some s) = s) := by
  refine ⟨fun fmt => rfl, fun fmt => rfl, ?_, ?_⟩
  · intro fmt s out hs hf
    simp [formatDate, hs, hf]
  · intro fmt s hs hf
    simp [formatDate, hs, hf]

/-- C9 witness: a parseable date formats, and a date whose formatting throws
falls back to the raw string. -/
theorem format_date_total_witness :
    formatDate (fun _ => some "12 Oca 2026 10:00:00")
      (some "2026-01-12T10:00:00Z") = "12 Oca 2026 10:00:00"
    ∧ formatDate (fun _ => none) (some "not-a-date") = "not-a-date" :=
  ⟨format_date_total.2.2.1 (fun _ => some "12 Oca 2026 10:00:00")
      "2026-01-12T10:00:00Z" "12 Oca 2026 10:00:00" (by decide) rfl,
   format_date_total.2.2.2 (fun _ => none) "not-a-date" (by decide) rfl⟩

/-- C10: each transfer-log stats card follows the toggle equation
newFilter equals the all filter when currentFilter equals cardStatus and
equals cardStatus otherwise: clicking a card whose status equals the current
filter clears the filter, clicking it otherwise sets that status, and
clicking the same card twice starting from the all filter returns to it. -/
theorem stats_card_filter_toggle :
    (∀ f : String,
      successCardClick f = cardToggleSpec f "success"
      ∧ failedCardClick f = cardToggleSpec f "failed"
      ∧ pendingCardClick f = cardToggleSpec f "pending")
    ∧ (successCardClick "success" = "all"
        ∧ failedCardClick "failed" = "all"
        ∧ pendingCardClick "pending" = "all")
    ∧ (∀ f : String, f ≠ "success" → successCardClick f = "success")
    ∧ (∀ f : String, f ≠ "failed" → failedCardClick f = "failed")
    ∧ (∀ f : String, f ≠ "pending" → pendingCardClick f = "pending")
    ∧ (successCardClick (successCardClick "all") = "all"
        ∧ failedCardClick (failedCardClick "all") = "all"
        ∧ pendingCardClick (pendingCardClick "all") = "all") := by
  refine ⟨fun f => ⟨rfl, rfl, rfl⟩, by decide, ?_, ?_, ?_, by decide⟩
  · intro f h; simp [successCardClick, h]
  · intro f h; simp [failedCardClick, h]
  · intro f h; simp [pendingCardClick, h]

/-- C10 witness: clicking a card that is not the current filter selects its
status. -/
theorem stats_card_filter_toggle_witness :
    successCardClick "all" = "success"
    ∧ failedCardClick "pending" = "failed"
    ∧ pendingCardClick "all" = "pending" :=
  ⟨stats_card_filter_toggle.2.2.1 "all" (by decide),
   stats_card_filter_toggle.2.2.2.1 "pending" (by decide),
   stats_card_filter_toggle.2.2.2.2.1 "all" (by decide)⟩

/-- C2 helper: creation fails with DuplicateMapping whenever some active
mapping in the store already has the requested cloud project key. -/
theorem createProjectMapping_error_of_active (store : List ProjectMapping)
    (input : ProjectMappingInput) (newId : String) (now : Nat)
    (m : ProjectMapping) (hm : m ∈ store) (hact : m.is_active = true)
    (hkey : m.cloud_project_key = input.cloud_project_key) :
    createProjectMapping store input newId now = .error .DuplicateMapping := by
  have hany : (store.any fun x =>
      x.is_active && x.cloud_project_key == input.cloud_project_key) = true := by
    rw [List.any_eq_true]
    exact ⟨m, hm, by simp [hact, hkey]⟩
  simp [createProjectMapping, hany]

/-- C2 helper: a successful creation inserts a row that is active, carries
the input cloud project key, and is a member of the returned store. -/
theorem createProjectMapping_ok_active (store : List ProjectMapping)
    (input : ProjectMappingInput) (newId : String) (now : Nat)
    (store₂ : List ProjectMapping) (row : ProjectMapping)
    (h : createProjectMapping store input newId now = .ok (store₂, row)) :
    row.is_active = true ∧ row.cloud_project_key = input.cloud_project_key
    ∧ row ∈ store₂ := by
  unfold createProjectMapping at h
  by_cases hc : (store.any fun x =>
      x.is_active && x.cloud_project_key == input.cloud_project_key) = true
  · simp [hc] at h
  · simp only [Bool.not_eq_true] at hc
    simp [hc] at h
    obtain ⟨hstore, hrow⟩ := h
    subst hrow
    subst hstore
    exact ⟨rfl, rfl, by simp⟩

/-- C2: a second ProjectMapping creation with the same cloud_project_key
while the first mapping is active fails with DuplicateMapping (both for any
store already holding such an active mapping, and immediately after a
successful creation); at the interface every cloud project whose key appears
in the current mappings list is excluded from the selectable cloud projects,
while the on-premise select offers every on-premise project. -/
theorem project_mapping_duplicate_guard :
    (∀ (store : List ProjectMapping) (input : ProjectMappingInput)
        (newId : String) (now : Nat),
      (∃ m ∈ store, m.is_active = true
        ∧ m.cloud_project_key = input.cloud_project_key) →
      createProjectMapping store input newId now = .error .DuplicateMapping)
    ∧ (∀ (store : List ProjectMapping) (input : ProjectMappingInput)
        (newId : String) (now : Nat) (store₂ : List ProjectMapping)
        (row : ProjectMapping),
        createProjectMapping store input newId now = .ok (store₂, row) →
        ∀ (input₂ : ProjectMappingInput) (newId₂ : String) (now₂ : Nat),
          input₂.cloud_project_key = input.cloud_project_key →
          createProjectMapping store₂ input₂ newId₂ now₂ =
            .error .DuplicateMapping)
    ∧ (∀ (cloudProjects : List Project) (mappings : List ProjectMapping)
        (p : Project),
        (∃ m ∈ mappings, m.cloud_project_key = p.key) →
        p ∉ availableCloudProjects cloudProjects mappings)
    ∧ (∀ onpremProjects : List Project,
        onpremSelectOptions onpremProjects = onpremProjects) := by
  refine ⟨?_, ?_, ?_, fun _ => rfl⟩
  · rintro store input newId now ⟨m, hm, hact, hkey⟩
    exact createProjectMapping_error_of_active store input newId now m hm hact hkey
  · intro store input newId now store₂ row h input₂ newId₂ now₂ hkey
    obtain ⟨hact, hrowkey, hmem⟩ :=
      createProjectMapping_ok_active store input newId now store₂ row h
    exact createProjectMapping_error_of_active store₂ input₂ newId₂ now₂ row hmem hact
      (by rw [hrowkey, hkey])
  · rintro cloudProjects mappings p ⟨m, hm, hkey⟩ hmem
    rw [availableCloudProjects, List.mem_filter] at hmem
    obtain ⟨-, hpred⟩ := hmem
    have hsome : (mappings.find? fun x => x.cloud_project_key == p.key).isSome := by
      rw [List.find?_isSome]
      exact ⟨m, hm, by simp [hkey]⟩
    simp [hsome] at hpred

/-- C2 witness: creating PROJ→OPROJ succeeds on an empty store, and an
immediate second creation for cloud project PROJ is rejected with
DuplicateMapping; the mapped cloud project disappears from the cloud select
while the on-premise list is untouched. -/
theorem project_mapping_duplicate_guard_witness :
    createProjectMapping
      [{ id := "pm1", cloud_project_key := "PROJ", cloud_project_name := "Proj",
         onprem_project_key := "OPROJ", onprem_project_name := "OProj",
         is_active := true, start_date := none, created_at := 0 }]
      (projectMappingPayload ⟨"PROJ", "Proj"⟩ ⟨"OPROJ2", "OProj2"⟩) "pm2" 1 =
        .error .DuplicateMapping
    ∧ ⟨"PROJ", "Proj"⟩ ∉ availableCloudProjects [⟨"PROJ", "Proj"⟩, ⟨"OTH", "Other"⟩]
        [{ id := "pm1", cloud_project_key := "PROJ", cloud_project_name := "Proj",
           onprem_project_key := "OPROJ", onprem_project_name := "OProj",
           is_active := true, start_date := none, created_at := 0 }] :=
  ⟨project_mapping_duplicate_guard.1 _ _ "pm2" 1
      ⟨{ id := "pm1", cloud_project_key := "PROJ", cloud_project_name := "Proj",
         onprem_project_key := "OPROJ", onprem_project_name := "OProj",
         is_active := true, start_date := none, created_at := 0 },
       by simp, rfl, rfl⟩,
   project_mapping_duplicate_guard.2.2.1 _ _ _
      ⟨{ id := "pm1", cloud_project_key := "PROJ", cloud_project_name := "Proj",
         onprem_project_key := "OPROJ", onprem_project_name := "OProj",
         is_active := true, start_date := none, created_at := 0 },
       by simp, rfl⟩⟩

/-- C3: cloud issue-type uniqueness is enforced per project_mapping_id, not
globally: the creation payload always carries the selected project mapping
id; the fetched mapping list is scoped to that project; a cloud type already
mapped under the selected project is excluded from the selectable cloud
types; a cloud type mapped only under other project mappings stays
selectable; and the modelled backend errors with UnknownProjectMapping when
the parent project mapping does not exist, rejects a duplicate only under
the same existing parent, and accepts the same cloud type string under a
different existing parent. -/
theorem issue_type_mapping_scoped_per_project :
    (∀ selectedProject selectedCloud selectedOnPrem : String,
      (issueTypeMappingPayload selectedProject selectedCloud
        selectedOnPrem).project_mapping_id = selectedProject)
    ∧ (∀ (store : List IssueTypeMapping) (pid : String),
        ∀ m ∈ listIssueTypeMappings store (some pid), m.project_mapping_id = pid)
    ∧ (∀ (store : List IssueTypeMapping) (pid : String)
        (cloudTypes : List IssueType) (t : IssueType),
        (∃ m ∈ store, m.project_mapping_id = pid ∧ m.cloud_issue_type = t.name) →
        t ∉ availableCloudTypes cloudTypes (listIssueTypeMappings store (some pid)))
    ∧ (∀ (store : List IssueTypeMapping) (pid : String)
        (cloudTypes : List IssueType) (t : IssueType),
        t ∈ cloudTypes →
        (∀ m ∈ store, m.cloud_issue_type = t.name → m.project_mapping_id ≠ pid) →
        t ∈ availableCloudTypes cloudTypes (listIssueTypeMappings store (some pid)))
    ∧ (∀ (projectMappings : List ProjectMapping) (store : List IssueTypeMapping)
        (input : IssueTypeMappingInput) (newId : String),
        (∀ p ∈ projectMappings, p.id ≠ input.project_mapping_id) →
        createIssueTypeMapping projectMappings store input newId =
          .error .UnknownProjectMapping)
    ∧ (∀ (projectMappings : List ProjectMapping) (store : List IssueTypeMapping)
        (input : IssueTypeMappingInput) (newId : String),
        (∃ p ∈ projectMappings, p.id = input.project_mapping_id) →
        (∃ m ∈ store, m.project_mapping_id = input.project_mapping_id
          ∧ m.cloud_issue_type = input.cloud_issue_type) →
        createIssueTypeMapping projectMappings store input newId =
          .error .DuplicateMapping)
    ∧ (∀ (projectMappings : List ProjectMapping) (store : List IssueTypeMapping)
        (input : IssueTypeMappingInput) (newId : String),
        (∃ p ∈ projectMappings, p.id = input.project_mapping_id) →
        (∀ m ∈ store, m.cloud_issue_type = input.cloud_issue_type →
          m.project_mapping_id ≠ input.project_mapping_id) →
        ∃ res, createIssueTypeMapping projectMappings store input newId
          = .ok res) := by
  refine ⟨fun _ _ _ => rfl, ?_, ?_, ?_, ?_, ?_, ?_⟩
  · intro store pid m hm
    rw [listIssueTypeMappings, List.mem_filter] at hm
    simpa using hm.2
  · rintro store pid cloudTypes t ⟨m, hm, hpid, htype⟩ hmem
    rw [availableCloudTypes, List.mem_filter] at hmem
    obtain ⟨-, hpred⟩ := hmem
    have hsome : ((listIssueTypeMappings store (some pid)).find? fun x =>
        x.cloud_issue_type == t.name).isSome := by
      rw [List.find?_isSome]
      refine ⟨m, ?_, by simp [htype]⟩
      rw [listIssueTypeMappings, List.mem_filter]
      exact ⟨hm, by simp [hpid]⟩
    simp [hsome] at hpred
  · intro store pid cloudTypes t ht hother
    rw [availableCloudTypes, List.mem_filter]
    refine ⟨ht, ?_⟩
    have hnone : ((listIssueTypeMappings store (some pid)).find? fun x =>
        x.cloud_issue_type == t.name) = none := by
      rw [List.find?_eq_none]
      intro m hm
      rw [listIssueTypeMappings, List.mem_filter] at hm
      obtain ⟨hms, hmpid⟩ := hm
      simp only [beq_iff_eq] at hmpid ⊢
      intro htype
      exact hother m hms htype hmpid
    simp [hnone]
  · intro projectMappings store input newId hnone
    have hpar : (projectMappings.any fun p => p.id == input.project_mapping_id)
        = false := by
      rw [List.any_eq_false]
      intro p hp
      simp only [beq_iff_eq]
      exact hnone p hp
    simp [createIssueTypeMapping, hpar]
  · rintro projectMappings store input newId ⟨p, hp, hpid⟩ ⟨m, hm, hmpid, htype⟩
    have hpar : (projectMappings.any fun x => x.id == input.project_mapping_id)
        = true := by
      rw [List.any_eq_true]
      exact ⟨p, hp, by simp [hpid]⟩
    have hany : (store.any fun x =>
        x.project_mapping_id == input.project_mapping_id &&
        x.cloud_issue_type == input.cloud_issue_type) = true := by
      rw [List.any_eq_true]
      exact ⟨m, hm, by simp [hmpid, htype]⟩
    simp [createIssueTypeMapping, hpar, hany]
  · rintro projectMappings store input newId ⟨p, hp, hpid⟩ hother
    have hpar : (projectMappings.any fun x => x.id == input.project_mapping_id)
        = true := by
      rw [List.any_eq_true]
      exact ⟨p, hp, by simp [hpid]⟩
    have hany : (store.any fun x =>
        x.project_mapping_id == input.project_mapping_id &&
        x.cloud_issue_type == input.cloud_issue_type) = false := by
      rw [List.any_eq_false]
      intro m hm
      simp only [Bool.and_eq_true, beq_iff_eq, not_and]
      intro hmpid htype
      exact absurd hmpid (hother m hm htype)
    refine ⟨(store ++
        [{ id := newId
           project_mapping_id := input.project_mapping_id
           cloud_issue_type := input.cloud_issue_type
           onprem_issue_type := input.onprem_issue_type }],
      { id := newId
        project_mapping_id := input.project_mapping_id
        cloud_issue_type := input.cloud_issue_type
        onprem_issue_type := input.onprem_issue_type }), ?_⟩
    simp [createIssueTypeMapping, hpar, hany]

/-- Concrete project mapping store used by the C3 witness: the parents pm1
and pm2 both exist. -/
def c3ProjectMappings : List ProjectMapping :=
  [{ id := "pm1", cloud_project_key := "PROJ", cloud_project_name := "Proj",
     onprem_project_key := "OPROJ", onprem_project_name := "OProj",
     is_active := true, start_date := none, created_at := 0 },
   { id := "pm2", cloud_project_key := "ALT", cloud_project_name := "Alt",
     onprem_project_key := "OALT", onprem_project_name := "OAlt",
     is_active := true, start_date := none, created_at := 0 }]

/-- Concrete issue type mapping store used by the C3 witness: Bug is mapped
under pm1 only. -/
def c3Store : List IssueTypeMapping :=
  [{ id := "it1", project_mapping_id := "pm1",
     cloud_issue_type := "Bug", onprem_issue_type := "Defect" }]

/-- C3 witness: with Bug already mapped under the existing project mapping
pm1, Bug is not selectable for pm1 but stays selectable for the existing pm2;
the backend rejects the pm1 duplicate, accepts the same string under pm2, and
errors with UnknownProjectMapping for the absent parent pm3. -/
theorem issue_type_mapping_scoped_per_project_witness :
    (⟨"Bug"⟩ : IssueType) ∉ availableCloudTypes [⟨"Bug"⟩, ⟨"Task"⟩]
      (listIssueTypeMappings c3Store (some "pm1"))
    ∧ (⟨"Bug"⟩ : IssueType) ∈ availableCloudTypes [⟨"Bug"⟩, ⟨"Task"⟩]
      (listIssueTypeMappings c3Store (some "pm2"))
    ∧ createIssueTypeMapping c3ProjectMappings c3Store
        (issueTypeMappingPayload "pm1" "Bug" "Hata") "it2" =
        .error .DuplicateMapping
    ∧ (∃ res, createIssueTypeMapping c3ProjectMappings c3Store
        (issueTypeMappingPayload "pm2" "Bug" "Hata") "it2" = .ok res)
    ∧ createIssueTypeMapping c3ProjectMappings c3Store
        (issueTypeMappingPayload "pm3" "Bug" "Hata") "it2" =
        .error .UnknownProjectMapping :=
  ⟨issue_type_mapping_scoped_per_project.2.2.1 c3Store "pm1" _ _ (by decide),
   issue_type_mapping_scoped_per_project.2.2.2.1 c3Store "pm2" _ _ (by decide)
      (by decide),
   issue_type_mapping_scoped_per_project.2.2.2.2.2.1 c3ProjectMappings c3Store
      _ "it2" (by decide) (by decide),
   issue_type_mapping_scoped_per_project.2.2.2.2.2.2 c3ProjectMappings c3Store
      _ "it2" (by decide) (by decide),
   issue_type_mapping_scoped_per_project.2.2.2.2.1 c3ProjectMappings c3Store
      _ "it2" (by decide)⟩

/-- C4: retry requires a failed row: when the addressed TransferLog row has
any status other than failed (in particular success), retry yields
InvalidState for every possible creation outcome, so no second on-premise
issue can be created; and at the interface a rendered log row offers the
retry action exactly when its status is failed, with success and pending rows
rendering the dash instead. -/
theorem retry_requires_failed_row :
    (∀ (logs : List TransferLog) (logId : String) (row : TransferLog)
        (attempt : Except String String),
      (logs.find? fun r => r.id == logId) = some row → row.status ≠ "failed" →
      retry logs logId attempt = .error .InvalidState)
    ∧ (∀ (logs : List TransferLog) (logId : String) (row : TransferLog)
        (attempt : Except String String),
      (logs.find? fun r => r.id == logId) = some row → row.status = "success" →
      retry logs logId attempt = .error .InvalidState)
    ∧ (∀ log : TransferLog, rowAction log = .retryButton log.id ↔ log.status = "failed")
    ∧ (∀ log : TransferLog, log.status = "success" ∨ log.status = "pending" →
        rowAction log = .dash) := by
  have base : ∀ (logs : List TransferLog) (logId : String) (row : TransferLog)
      (attempt : Except String String),
      (logs.find? fun r => r.id == logId) = some row → row.status ≠ "failed" →
      retry logs logId attempt = .error .InvalidState := by
    intro logs logId row attempt hfind hstat
    rw [retry, hfind]
    simp [hstat]
  refine ⟨base, ?_, ?_, ?_⟩
  · intro logs logId row attempt hfind hstat
    exact base logs logId row attempt hfind (by rw [hstat]; decide)
  · intro log
    by_cases h : log.status = "failed" <;> simp [rowAction, h]
  · rintro log (h | h) <;>
      · rw [rowAction, if_neg]
        rw [h]
        decide

/-- C4 witness: retrying a concrete row already in success state is rejected
with InvalidState whatever the creation attempt would return, and the
rendered row offers no retry control, while a failed row does. -/
theorem retry_requires_failed_row_witness :
    retry
      [{ id := "log1", project_mapping_id := "pm1", cloud_issue_key := "PROJ-1",
         cloud_issue_summary := "a bug", onprem_issue_key := some "OPROJ-9",
         status := "success", error_message := none, created_at := 0,
         attempt_count := 1 }]
      "log1" (.ok "OPROJ-10") = .error .InvalidState
    ∧ rowAction
      { id := "log1", project_mapping_id := "pm1", cloud_issue_key := "PROJ-1",
        cloud_issue_summary := "a bug", onprem_issue_key := some "OPROJ-9",
        status := "success", error_message := none, created_at := 0,
        attempt_count := 1 } = .dash
    ∧ rowAction
      { id := "log2", project_mapping_id := "pm1", cloud_issue_key := "PROJ-2",
        cloud_issue_summary := "a bug", onprem_issue_key := none,
        status := "failed", error_message := some "HTTP 500", created_at := 0,
        attempt_count := 1 } = .retryButton "log2" :=
  ⟨retry_requires_failed_row.2.1 _ "log1" _ (.ok "OPROJ-10") rfl rfl,
   retry_requires_failed_row.2.2.2 _ (Or.inl rfl),
   (retry_requires_failed_row.2.2.1 _).mpr rfl⟩

/-- C7: toggling flips only the activation flag: the updated mappings list
has the same length; at every position the mapping is unchanged when its id
differs from the toggled id, and otherwise differs only in is_active, which
is set to the boolean returned by the toggle; updating is_active preserves
every other field; and the modelled backend toggle leaves child issue-type
mappings and transfer history untouched while returning the flipped flag. -/
theorem toggle_flips_only_is_active :
    (∀ (mappings : List ProjectMapping) (id : String) (b : Bool),
      (applyToggle mappings id b).length = mappings.length)
    ∧ (∀ (mappings : List ProjectMapping) (id : String) (b : Bool) (i : Nat),
        i < mappings.length →
        ∃ m, mappings[i]? = some m
          ∧ (m.id ≠ id → (applyToggle mappings id b)[i]? = some m)
          ∧ (m.id = id →
              (applyToggle mappings id b)[i]? = some { m with is_active := b }))
    ∧ (∀ (m : ProjectMapping) (b : Bool),
        ({ m with is_active := b } : ProjectMapping).id = m.id
        ∧ ({ m with is_active := b } : ProjectMapping).cloud_project_key
            = m.cloud_project_key
        ∧ ({ m with is_active := b } : ProjectMapping).cloud_project_name
            = m.cloud_project_name
        ∧ ({ m with is_active := b } : ProjectMapping).onprem_project_key
            = m.onprem_project_key
        ∧ ({ m with is_active := b } : ProjectMapping).onprem_project_name
            = m.onprem_project_name
        ∧ ({ m with is_active := b } : ProjectMapping).start_date = m.start_date
        ∧ ({ m with is_active := b } : ProjectMapping).created_at = m.created_at
        ∧ ({ m with is_active := b } : ProjectMapping).is_active = b)
    ∧ (∀ (s : RegistryState) (id : String),
        (toggleProjectMapping s id).1.issueTypeMappings = s.issueTypeMappings
        ∧ (toggleProjectMapping s id).1.logs = s.logs)
    ∧ (∀ (s : RegistryState) (id : String) (m : ProjectMapping),
        (s.mappings.find? fun x => x.id == id) = some m →
        (toggleProjectMapping s id).2 = some (!m.is_active)
        ∧ (toggleProjectMapping s id).1.mappings
            = applyToggle s.mappings id (!m.is_active)) := by
  refine ⟨?_, ?_, fun m b => ⟨rfl, rfl, rfl, rfl, rfl, rfl, rfl, rfl⟩, ?_, ?_⟩
  · intro mappings id b
    simp [applyToggle]
  · intro mappings id b i h
    refine ⟨mappings[i], List.getElem?_eq_getElem h, ?_, ?_⟩
    · intro hne
      rw [applyToggle, List.getElem?_map, List.getElem?_eq_getElem h]
      simp [hne]
    · intro heq
      rw [applyToggle, List.getElem?_map, List.getElem?_eq_getElem h]
      simp [heq]
  · intro s id
    rcases hf : s.mappings.find? fun x => x.id == id with - | m <;>
      simp [toggleProjectMapping, hf]
  · intro s id m hfind
    simp [toggleProjectMapping, hfind]

/-- C7 witness: toggling pm1 off in a concrete two-mapping state leaves the
unrelated mapping, the issue-type mappings and the logs untouched, changes
only the is_active field of pm1, and reports the new boolean state. -/
theorem toggle_flips_only_is_active_witness :
    (toggleProjectMapping
      { mappings :=
          [{ id := "pm1", cloud_project_key := "PROJ", cloud_project_name := "Proj",
             onprem_project_key := "OPROJ", onprem_project_name := "OProj",
             is_active := true, start_date := none, created_at := 0 },
           { id := "pm2", cloud_project_key := "ALT", cloud_project_name := "Alt",
             onprem_project_key := "OALT", onprem_project_name := "OAlt",
             is_active := false, start_date := none, created_at := 0 }]
        issueTypeMappings :=
          [{ id := "it1", project_mapping_id := "pm1",
             cloud_issue_type := "Bug", onprem_issue_type := "Defect" }]
        logs :=
          [{ id := "log1", project_mapping_id := "pm1", cloud_issue_key := "PROJ-1",
             cloud_issue_summary := "a bug", onprem_issue_key := some "OPROJ-9",
             status := "success", error_message := none, created_at := 0,
             attempt_count := 1 }] } "pm1").1.issueTypeMappings =
      [{ id := "it1", project_mapping_id := "pm1",
         cloud_issue_type := "Bug", onprem_issue_type := "Defect" }]
    ∧ (applyToggle
        [{ id := "pm1", cloud_project_key := "PROJ", cloud_project_name := "Proj",
           onprem_project_key := "OPROJ", onprem_project_name := "OProj",
           is_active := true, start_date := none, created_at := 0 },
         { id := "pm2", cloud_project_key := "ALT", cloud_project_name := "Alt",
           onprem_project_key := "OALT", onprem_project_name := "OAlt",
           is_active := false, start_date := none, created_at := 0 }]
        "pm1" false)[1]? =
      some { id := "pm2", cloud_project_key := "ALT", cloud_project_name := "Alt",
             onprem_project_key := "OALT", onprem_project_name := "OAlt",
             is_active := false, start_date := none, created_at := 0 } := by
  constructor
  · exact (toggle_flips_only_is_active.2.2.2.1 _ "pm1").1
  · have h := toggle_flips_only_is_active.2.1
      [{ id := "pm1", cloud_project_key := "PROJ", cloud_project_name := "Proj",
         onprem_project_key := "OPROJ", onprem_project_name := "OProj",
         is_active := true, start_date := none, created_at := 0 },
       { id := "pm2", cloud_project_key := "ALT", cloud_project_name := "Alt",
         onprem_project_key := "OALT", onprem_project_name := "OAlt",
         is_active := false, start_date := none, created_at := 0 }]
      "pm1" false 1 (by decide)
    obtain ⟨m, hm, hne, -⟩ := h
    have hm2 : m =
        { id := "pm2", cloud_project_key := "ALT",
          cloud_project_name := "Alt", onprem_project_key := "OALT",
          onprem_project_name := "OAlt", is_active := false, start_date := none,
          created_at := 0 } := by
      have := hm
      simp at this
      exact this.symm
    rw [hm2] at hne
    exact hne (by decide)

/-- C6 helper: membership in a conditional block that is empty when its
condition fails. -/
theorem mem_ite_nil {α : Type} (a : α) (c : Prop) [Decidable c] (l : List α) :
    a ∈ (if c then l else []) ↔ c ∧ a ∈ l := by
  split <;> simp_all

/-- C6 helper: the cloud causes list is never empty. -/
theorem cloudCauses_ne_nil (e : String) : cloudCauses e ≠ [] := by
  unfold cloudCauses
  cases h1 : strHasSub e "401" <;> cases h2 : strHasSub e "403" <;>
    cases h3 : strHasSub e "timeout" <;> cases h4 : strHasSub e "getaddrinfo" <;>
      simp [h1, h2, h3, h4]

/-- C6 helper: the on-premise causes list is never empty. -/
theorem onpremCauses_ne_nil (e : String) : onpremCauses e ≠ [] := by
  unfold onpremCauses
  cases h1 : strHasSub e "401" <;> cases h2 : strHasSub e "403" <;>
    cases h3 : strHasSub e "timeout" <;> cases h4 : strHasSub e "zaman aşımı" <;>
      cases h5 : strHasSub e "getaddrinfo" <;>
        cases h6 : strHasSub e "Connection refused" <;>
          simp [h1, h2, h3, h4, h5, h6]

/-- C6 helper: the cloud generic fallback appears exactly when none of 401,
403, timeout, getaddrinfo occurs in the error text. -/
theorem cloudCauses_fallback_iff (e : String) :
    CloudCause.checkUrlFormat ∈ cloudCauses e ↔
      (strHasSub e "401" = false ∧ strHasSub e "403" = false
        ∧ strHasSub e "timeout" = false ∧ strHasSub e "getaddrinfo" = false) := by
  unfold cloudCauses
  simp [mem_ite_nil, List.mem_append]
  tauto

/-- C6 helper: the on-premise generic fallback appears exactly when none of
401, 403, timeout, zaman aşımı, getaddrinfo, Connection refused occurs. -/
theorem onpremCauses_fallback_iff (e : String) :
    OnPremCause.checkUrlFormat ∈ onpremCauses e ↔
      (strHasSub e "401" = false ∧ strHasSub e "403" = false
        ∧ strHasSub e "timeout" = false ∧ strHasSub e "zaman aşımı" = false
        ∧ strHasSub e "getaddrinfo" = false
        ∧ strHasSub e "Connection refused" = false) := by
  unfold onpremCauses
  simp [mem_ite_nil, List.mem_append]
  tauto

/-- C6: error classification is display-only, total, and always produces a
diagnosis: for every connection error string the rendered possible-causes
lists of both sides are non-empty; each recognized marker substring
contributes its specific causes; and the generic fallback suggestions appear
exactly when the string contains none of 401, 403, timeout, getaddrinfo (for
the on-premise side additionally none of zaman aşımı, Connection refused).
The classifiers are total functions into display tags only, so they cannot
throw or alter control flow. -/
theorem error_classification_total_display :
    (∀ e : String, cloudCauses e ≠ [] ∧ onpremCauses e ≠ [])
    ∧ (∀ e : String, CloudCause.checkUrlFormat ∈ cloudCauses e ↔
        (strHasSub e "401" = false ∧ strHasSub e "403" = false
          ∧ strHasSub e "timeout" = false ∧ strHasSub e "getaddrinfo" = false))
    ∧ (∀ e : String, OnPremCause.checkUrlFormat ∈ onpremCauses e ↔
        (strHasSub e "401" = false ∧ strHasSub e "403" = false
          ∧ strHasSub e "timeout" = false ∧ strHasSub e "zaman aşımı" = false
          ∧ strHasSub e "getaddrinfo" = false
          ∧ strHasSub e "Connection refused" = false))
    ∧ (∀ e : String,
        (strHasSub e "getaddrinfo" = true →
          CloudCause.urlUnreachable ∈ cloudCauses e)
        ∧ (strHasSub e "401" = true →
            CloudCause.wrongEmail ∈ cloudCauses e
            ∧ CloudCause.invalidToken ∈ cloudCauses e)
        ∧ (strHasSub e "403" = true →
            CloudCause.insufficientTokenPerms ∈ cloudCauses e)
        ∧ (strHasSub e "timeout" = true →
            CloudCause.serverTimeout ∈ cloudCauses e)
        ∧ (strHasSub e "SSL" = true → CloudCause.sslProblem ∈ cloudCauses e)
        ∧ (strHasSub e "Connection refused" = true →
            OnPremCause.refusedCheckFirewall ∈ onpremCauses e)
        ∧ (strHasSub e "zaman aşımı" = true →
            OnPremCause.cloudEnvironmentNote ∈ onpremCauses e)
        ∧ (strHasSub e "401" = true →
            OnPremCause.wrongUsername ∈ onpremCauses e
            ∧ OnPremCause.wrongPassword ∈ onpremCauses e)) := by
  refine ⟨fun e => ⟨cloudCauses_ne_nil e, onpremCauses_ne_nil e⟩,
    cloudCauses_fallback_iff, onpremCauses_fallback_iff, ?_⟩
  intro e
  refine ⟨?_, ?_, ?_, ?_, ?_, ?_, ?_, ?_⟩ <;> intro h <;>
    simp [cloudCauses, onpremCauses, mem_ite_nil, List.mem_append, h]

/-- C6 witness: a concrete error text carrying every marker receives each of
the marker-specific causes on the matching side. -/
theorem error_classification_total_display_witness :
    CloudCause.wrongEmail ∈
      cloudCauses "401 403 timeout getaddrinfo SSL zaman aşımı Connection refused"
    ∧ CloudCause.serverTimeout ∈
      cloudCauses "401 403 timeout getaddrinfo SSL zaman aşımı Connection refused"
    ∧ OnPremCause.refusedCheckFirewall ∈
      onpremCauses "401 403 timeout getaddrinfo SSL zaman aşımı Connection refused"
    ∧ OnPremCause.cloudEnvironmentNote ∈
      onpremCauses "401 403 timeout getaddrinfo SSL zaman aşımı Connection refused" :=
  ⟨((error_classification_total_display.2.2.2
      "401 403 timeout getaddrinfo SSL zaman aşımı Connection refused").2.1
      (by decide)).1,
   (error_classification_total_display.2.2.2
      "401 403 timeout getaddrinfo SSL zaman aşımı Connection refused").2.2.2.1
      (by decide),
   (error_classification_total_display.2.2.2
      "401 403 timeout getaddrinfo SSL zaman aşımı Connection refused").2.2.2.2.2.1
      (by decide),
   (error_classification_total_display.2.2.2
      "401 403 timeout getaddrinfo SSL zaman aşımı Connection refused").2.2.2.2.2.2.1
      (by decide)⟩

end JiraSync
